import Mathlib

/-!
Verification development for the checkout SDK sources: a shallow embedding of
the billing-address action creator, the Stripe checkout-session payment
strategy, the Stripe UPE script loader and the language service, together with
theorems settling the specification claims about them.

JavaScript `undefined`/`null` field values are modelled as `Option.none`;
string truthiness (`!s`) is modelled by emptiness checks; asynchronous
request/response boundaries are modelled as explicit environment fields holding
the outcome each external collaborator produces, and observable side effects
are collected into explicit event traces.
-/

namespace CheckoutSdk

/-- Truthiness of a JS string-or-undefined value: `undefined` and the empty
string are falsy. -/
def truthyStr : Option String → Bool
  | none => false
  | some s => !s.isEmpty

/-! ### Shared error taxonomy

The error classes thrown by the embedded code
(`MissingDataError`, `NotInitializedError`, `InvalidArgumentError`,
`PaymentMethodFailedError`, `OrderFinalizationNotRequiredError`,
`PaymentMethodClientUnavailableError`, `RequestError`, plain `Error`). -/

inductive MissingDataErrorType
  | missingCheckout
  | missingPaymentMethod
  deriving Repr, DecidableEq

/-- Data of `error.body.additional_action_required.data` on a request error. -/
structure AdditionalActionData where
  redirect_url : Option String
  token : Option String
  deriving Repr, DecidableEq

/-- The structured body carried by a `RequestError`: the list of error codes in
`body.errors` and the optional `additional_action_required.data`. -/
structure RequestErrorBody where
  errorCodes : List String
  additionalActionData : Option AdditionalActionData
  deriving Repr, DecidableEq

inductive JsError
  | notInitialized
  | invalidArgument (msg : String)
  | missingData (t : MissingDataErrorType)
  | orderFinalizationNotRequired
  | paymentMethodFailed (msg : Option String)
  | paymentMethodClientUnavailable
  | requestError (body : RequestErrorBody)
  | formatError (originalMessage : Option String)
  | error (msg : String)
  deriving Repr, DecidableEq

deriving instance DecidableEq for Except

/-- `isRequestError(error)` from the payment integration API. -/
def isRequestError : JsError → Bool
  | .requestError _ => true
  | _ => false

/-! ### Billing address domain (`BillingAddressActionCreator`)

The stored billing address and the request bodies it produces.  A
representative set of address fields is kept: `id`, `firstName`, `email` and
`country` (the field that `continueAsGuest` drops), plus the two
marketing-consent fields that guest credentials can spread onto a body. -/

/-- A stored billing address as returned by `state.billingAddress.getBillingAddress()`.
Its `email` is a plain string; `id` is present once persisted remotely. -/
structure BillingAddress where
  id : Option String
  firstName : Option String
  email : String
  country : Option String
  deriving Repr, DecidableEq

/-- `Partial<BillingAddressUpdateRequestBody>`: every field optional, `none`
standing for an absent (`undefined`) key. -/
structure BillingAddressRequestBody where
  id : Option String := none
  firstName : Option String := none
  email : Option String := none
  country : Option String := none
  acceptsAbandonedCartEmails : Option Bool := none
  acceptsMarketingNewsletter : Option Bool := none
  deriving Repr, DecidableEq

/-- `GuestCredentials`: an email plus optional marketing-consent flags, where
`none` stands for an absent, `undefined` or `null` flag. -/
structure GuestCredentials where
  email : String
  acceptsAbandonedCartEmails : Option Bool := none
  acceptsMarketingNewsletter : Option Bool := none
  deriving Repr, DecidableEq

structure Customer where
  isGuest : Bool
  deriving Repr, DecidableEq

/-- The checkout body: only the fields the embedded code reads. -/
structure Checkout where
  id : String
  deriving Repr, DecidableEq

/-- The slice of `InternalCheckoutSelectors` read by the billing-address action
creator.  `billingFixFeature` models
`config.getConfig()?.storeConfig.checkoutSettings.features[...]`, with `none`
when the config or the flag is absent (the code then defaults it to `true`
via `?? true`). -/
structure CheckoutStoreState where
  checkout : Option Checkout
  customer : Option Customer
  billingAddress : Option BillingAddress
  billingFixFeature : Option Bool
  deriving Repr, DecidableEq

/-- Errors thrown synchronously by the action creator before any action is
emitted. -/
inductive BillingSyncError
  | missingData (t : MissingDataErrorType)
  | unableToContinueAsGuest
  deriving Repr, DecidableEq

/-- A request-layer failure (the rejection wrapped into a `Failed` action). -/
structure RequestFailure where
  message : String
  deriving Repr, DecidableEq

inductive RequestKind
  | create
  | update
  deriving Repr, DecidableEq

/-- Lifecycle actions of the guest-continuation / address-update streams. -/
inductive BillingAction
  | requested
  | succeeded (body : Checkout)
  | failed (e : RequestFailure)
  deriving Repr, DecidableEq

/-- Body sent by `_updateCustomerConsent` through
`subscriptionActionCreator.updateSubscriptions`. -/
structure SubscriptionsBody where
  email : String
  acceptsMarketingNewsletter : Bool
  acceptsAbandonedCartEmails : Bool
  deriving Repr, DecidableEq

/-- The observable produced by `continueAsGuest`: the ordered billing branch
`concat(of(Requested), defer(request))` piped through `catchError`, the single
create-or-update request it issues, and the concurrently merged
`_updateCustomerConsent` stream (`none` when that stream is `empty()`).  The
two streams are separate components of an rxjs `merge`, so the subscription
update is not sequenced after the billing branch. -/
structure ContinueAsGuestResult where
  billingActions : List BillingAction
  requestKind : RequestKind
  requestBody : BillingAddressRequestBody
  subscriptionUpdate : Option SubscriptionsBody
  deriving Repr, DecidableEq

/-- The credentials object spread into a fresh request body
(`billingAddressRequestBody = credentials` when no billing address is stored). -/
def guestCredentialsBody (c : GuestCredentials) : BillingAddressRequestBody :=
  { email := some c.email
    acceptsAbandonedCartEmails := c.acceptsAbandonedCartEmails
    acceptsMarketingNewsletter := c.acceptsMarketingNewsletter }

/-- The destructuring `const { country, ...existingBillingAddressRequestBody } =
billingAddress`: the stored address with its `country` key removed. -/
def dropCountry (ba : BillingAddress) : BillingAddressRequestBody :=
  { id := ba.id
    firstName := ba.firstName
    email := some ba.email
    country := none }

/-- The spread `{ ...existingBillingAddressRequestBody, ...credentials }`:
every key present on the credentials object overrides the stored one.  `email`
is always present on `GuestCredentials`; a consent flag overrides only when the
caller actually supplied it. -/
def spreadCredentials (body : BillingAddressRequestBody) (c : GuestCredentials) :
    BillingAddressRequestBody :=
  { body with
    email := some c.email
    acceptsAbandonedCartEmails :=
      match c.acceptsAbandonedCartEmails with
      | some b => some b
      | none => body.acceptsAbandonedCartEmails
    acceptsMarketingNewsletter :=
      match c.acceptsMarketingNewsletter with
      | some b => some b
      | none => body.acceptsMarketingNewsletter }

/-- `_createOrUpdateBillingAddress`: which request-sender method is chosen.
Under the billing-fix experiment the stored-address presence decides; otherwise
the truthiness of `address.id` decides. -/
def createOrUpdateBillingAddress (isBillingFixExperimentEnabled hasBillingAddress : Bool)
    (address : BillingAddressRequestBody) : RequestKind :=
  if isBillingFixExperimentEnabled then
    if !hasBillingAddress then .create else .update
  else
    if !truthyStr address.id then .create else .update

/-- `_updateCustomerConsent`: `empty()` when both consent flags are absent
(`undefined`/`null`), otherwise one subscriptions update whose absent flags are
defaulted to `false` (`acceptsMarketingNewsletter || false`). -/
def updateCustomerConsent (c : GuestCredentials) : Option SubscriptionsBody :=
  if c.acceptsAbandonedCartEmails.isNone && c.acceptsMarketingNewsletter.isNone then
    none
  else
    some
      { email := c.email
        acceptsMarketingNewsletter := c.acceptsMarketingNewsletter.getD false
        acceptsAbandonedCartEmails := c.acceptsAbandonedCartEmails.getD false }

/-- `BillingAddressActionCreator.continueAsGuest`.  `requestResult` is the
outcome the request sender produces for the single create-or-update call; a
synchronous precondition failure returns `Except.error` carrying nothing — no
action has been emitted and no request issued. -/
def continueAsGuest (st : CheckoutStoreState) (credentials : GuestCredentials)
    (requestResult : Except RequestFailure Checkout) :
    Except BillingSyncError ContinueAsGuestResult :=
  let isBillingFixExperimentEnabled := st.billingFixFeature.getD true
  match st.checkout with
  | none => .error (.missingData .missingCheckout)
  | some _checkout =>
    if (match st.customer with
        | some customer => !customer.isGuest
        | none => false) then
      .error .unableToContinueAsGuest
    else
      let billingAddress := st.billingAddress
      let billingAddressRequestBody :=
        match billingAddress with
        | none => guestCredentialsBody credentials
        | some ba => spreadCredentials (dropCountry ba) credentials
      let hasBillingAddress := billingAddress.isSome
      .ok
        { billingActions :=
            match requestResult with
            | .ok body => [.requested, .succeeded body]
            | .error e => [.requested, .failed e]
          requestKind :=
            createOrUpdateBillingAddress isBillingFixExperimentEnabled
              hasBillingAddress billingAddressRequestBody
          requestBody := billingAddressRequestBody
          subscriptionUpdate := updateCustomerConsent credentials }

/-- Request-body construction inside `updateAddress`: fall back to the stored
email only when the caller omitted the `email` key entirely, then forward the
stored persisted id when it is truthy. -/
def updateAddressRequestBody (address : BillingAddressRequestBody)
    (billingAddress : Option BillingAddress) : BillingAddressRequestBody :=
  let body :=
    { address with
      email :=
        match address.email, billingAddress with
        | none, some ba => some ba.email
        | e, _ => e }
  match billingAddress with
  | some ba => if truthyStr ba.id then { body with id := ba.id } else body
  | none => body

/-- The observable produced by `updateAddress`. -/
structure UpdateAddressResult where
  actions : List BillingAction
  requestKind : RequestKind
  requestBody : BillingAddressRequestBody
  deriving Repr, DecidableEq

/-- `BillingAddressActionCreator.updateAddress`. -/
def updateAddress (st : CheckoutStoreState) (address : BillingAddressRequestBody)
    (requestResult : Except RequestFailure Checkout) :
    Except BillingSyncError UpdateAddressResult :=
  let isBillingFixExperimentEnabled := st.billingFixFeature.getD true
  match st.checkout with
  | none => .error (.missingData .missingCheckout)
  | some _checkout =>
    let billingAddress := st.billingAddress
    let hasBillingAddress := billingAddress.isSome
    let billingAddressRequestBody := updateAddressRequestBody address billingAddress
    .ok
      { actions :=
          match requestResult with
          | .ok body => [.requested, .succeeded body]
          | .error e => [.requested, .failed e]
        requestKind :=
          createOrUpdateBillingAddress isBillingFixExperimentEnabled
            hasBillingAddress billingAddressRequestBody
        requestBody := billingAddressRequestBody }

/-! ### Stripe checkout-session payment strategy (`StripeCSPaymentStrategy`)

The strategy instance holds three mutable fields (`stripeClient`,
`stripeCheckout`, `selectedMethodId`); every external collaborator call is
recorded as a `StrategyEvent` and its outcome is read from an explicit
environment. -/

inductive StripePaymentStatus
  | paid
  | unpaid
  deriving Repr, DecidableEq

structure StripeSessionStatus where
  paymentStatus : StripePaymentStatus
  deriving Repr, DecidableEq

structure StripeCheckoutSession where
  id : String
  status : StripeSessionStatus
  deriving Repr, DecidableEq

structure StripeErrorObj where
  message : Option String
  deriving Repr, DecidableEq

/-- Result object of `stripeActions.confirm(...)`. -/
structure StripeConfirmResult where
  session : Option StripeCheckoutSession
  error : Option StripeErrorObj
  deriving Repr, DecidableEq

/-- Result object of `stripeCheckout.loadActions()`: whether the `actions`
object is present, plus an optional error. -/
structure StripeLoadActionsResult where
  actions : Bool
  error : Option StripeErrorObj
  deriving Repr, DecidableEq

/-- A mounted or created Stripe payment element, identified by a tag. -/
structure StripeElementH where
  tag : Nat
  deriving Repr, DecidableEq

/-- A loaded Stripe client handle, identified by a tag. -/
structure StripeClientH where
  tag : Nat
  deriving Repr, DecidableEq

/-- The Stripe checkout instance obtained from `scriptLoader.getStripeCheckout`:
what its `getPaymentElement`/`createPaymentElement` return and what its
`loadActions` resolves to (an `Except.error` models a rejected promise). -/
structure StripeCheckoutInstance where
  paymentElement : Option StripeElementH
  createdElement : Option StripeElementH
  loadActions : Except JsError StripeLoadActionsResult
  deriving Repr, DecidableEq

/-- The three private fields of the strategy instance. -/
structure StrategyState where
  stripeClient : Option StripeClientH
  stripeCheckout : Option StripeCheckoutInstance
  selectedMethodId : Option String
  deriving Repr, DecidableEq

/-- A freshly constructed strategy. -/
def initialStrategyState : StrategyState :=
  { stripeClient := none, stripeCheckout := none, selectedMethodId := none }

/-- Payload built by `_getPaymentPayload` (`methodId` plus the formatted
payload fields).  The token is optional because the additional-action round can
forward an absent token. -/
structure PaymentPayload where
  methodId : String
  cart_id : String
  confirm : Bool
  method : Option String
  token : Option String
  deriving Repr, DecidableEq

/-- Observable side effects of the strategy. -/
inductive StrategyEvent
  | loadPaymentMethod
  | getStripeClient
  | getStripeCheckout
  | updateEmail (email : String)
  | mountElement (el : StripeElementH)
  | onError (e : JsError)
  | applyStoreCredit
  | submitOrder
  | submitPayment (p : PaymentPayload)
  | confirm (returnUrl : Option String)
  | unmountElement (el : StripeElementH)
  | destroyElement (el : StripeElementH)
  deriving Repr, DecidableEq

def isSubmitPaymentEvent : StrategyEvent → Bool
  | .submitPayment _ => true
  | _ => false

def isConfirmEvent : StrategyEvent → Bool
  | .confirm _ => true
  | _ => false

def isGetStripeClientEvent : StrategyEvent → Bool
  | .getStripeClient => true
  | _ => false

def isUnmountEvent : StrategyEvent → Bool
  | .unmountElement _ => true
  | _ => false

def isDestroyEvent : StrategyEvent → Bool
  | .destroyElement _ => true
  | _ => false

def countEvents (p : StrategyEvent → Bool) (ev : List StrategyEvent) : Nat :=
  (ev.filter p).length

/-- The payment-method record read through `getPaymentMethodOrThrow`; its
`initializationData` carries the `enableLink` option. -/
structure StripeInitData where
  enableLink : Bool
  deriving Repr, DecidableEq

structure PaymentMethodData where
  clientToken : Option String
  initializationData : Option StripeInitData
  deriving Repr, DecidableEq

/-- `isStripePaymentMethodLike`: the payment method carries a Stripe
initialization-data object. -/
def isStripePaymentMethodLike (pm : PaymentMethodData) : Bool :=
  pm.initializationData.isSome

/-- `_getStripeActionsOrThrow`: requires an initialized checkout instance,
loads its actions and fails with a `PaymentMethodFailedError` when the actions
object is absent or an error is reported. -/
def getStripeActionsOrThrow (st : StrategyState) : Except JsError Unit :=
  match st.stripeCheckout with
  | none => .error .notInitialized
  | some inst =>
    match inst.loadActions with
    | .error e => .error e
    | .ok la =>
      if !la.actions || la.error.isSome then
        .error (.paymentMethodFailed (la.error.bind (·.message)))
      else
        .ok ()

/-- Environment of `initialize`: the outcomes of the collaborator calls it can
make, in source order. -/
structure InitEnv where
  paymentMethod : Option PaymentMethodData
  reloadedPaymentMethod : Option PaymentMethodData
  scriptClient : Except JsError StripeClientH
  stripeCheckout : Except JsError StripeCheckoutInstance
  billingEmail : Option String
  deriving Repr, DecidableEq

/-- `_loadStripeJs`: reuse the cached client handle when present, otherwise
call the script loader. -/
def loadStripeJs (st : StrategyState) (env : InitEnv) :
    Except JsError StripeClientH × List StrategyEvent :=
  match st.stripeClient with
  | some c => (.ok c, [])
  | none => (env.scriptClient, [.getStripeClient])

/-- `_getStripeElement`: the existing payment element or a freshly created one. -/
def getStripeElement (inst : StripeCheckoutInstance) : Option StripeElementH :=
  match inst.paymentElement with
  | some el => some el
  | none => inst.createdElement

/-- The opening block of `_initializeStripeElement`: read the payment method
through `getPaymentMethodOrThrow` and, when its client token is falsy, reload
it through `loadPaymentMethod` and read it again. -/
def resolvePaymentMethod (env : InitEnv) :
    Except JsError PaymentMethodData × List StrategyEvent :=
  match env.paymentMethod with
  | none => (.error (.missingData .missingPaymentMethod), [])
  | some pm =>
    if !truthyStr pm.clientToken then
      match env.reloadedPaymentMethod with
      | none => (.error (.missingData .missingPaymentMethod), [.loadPaymentMethod])
      | some pm2 => (.ok pm2, [.loadPaymentMethod])
    else
      (.ok pm, [])

/-- Remainder of `_initializeStripeElement` once a payment method is resolved:
validate its shape and token, load the Stripe client and checkout instance
(mutating the corresponding strategy fields as it goes), load the actions,
push the billing email, then mount the element.  Returns the outcome together
with the strategy state as left by the partial run and the trace of
collaborator calls. -/
def initializeStripeElementCore (st : StrategyState) (env : InitEnv)
    (pm : PaymentMethodData) :
    Except JsError Unit × StrategyState × List StrategyEvent :=
  if !isStripePaymentMethodLike pm then
    (.error (.missingData .missingPaymentMethod), st, [])
  else if !truthyStr pm.clientToken then
    (.error (.missingData .missingPaymentMethod), st, [])
  else
    match loadStripeJs st env with
    | (.error e, ev1) => (.error e, st, ev1)
    | (.ok client, ev1) =>
      let st1 : StrategyState := { st with stripeClient := some client }
      match env.stripeCheckout with
      | .error e => (.error e, st1, ev1 ++ [.getStripeCheckout])
      | .ok inst =>
        let st2 : StrategyState := { st1 with stripeCheckout := some inst }
        let ev2 := ev1 ++ [StrategyEvent.getStripeCheckout]
        match getStripeActionsOrThrow st2 with
        | .error e => (.error e, st2, ev2)
        | .ok _ =>
          let ev3 := ev2 ++ [StrategyEvent.updateEmail (env.billingEmail.getD "")]
          match getStripeElement inst with
          | none => (.error .notInitialized, st2, ev3)
          | some el => (.ok (), st2, ev3 ++ [.mountElement el])

/-- `_initializeStripeElement`: payment-method resolution followed by the
element setup. -/
def initializeStripeElement (st : StrategyState) (env : InitEnv) :
    Except JsError Unit × StrategyState × List StrategyEvent :=
  match resolvePaymentMethod env with
  | (.error e, ev0) => (.error e, st, ev0)
  | (.ok pm, ev0) =>
    match initializeStripeElementCore st env pm with
    | (r, st1, ev1) => (r, st1, ev0 ++ ev1)

/-- `_initAdaptivePricing`: fails only when no checkout instance is cached; the
body of its internal try block swallows every other error. -/
def initAdaptivePricing (st : StrategyState) : Except JsError Unit :=
  if st.stripeCheckout.isNone then .error .notInitialized else .ok ()

/-- The `stripeocs` initialize options the strategy reads: the container id and
whether the caller supplied an `onError` callback. -/
structure StripeOCSOpts where
  containerId : String
  onErrorProvided : Bool
  deriving Repr, DecidableEq

structure InitOptions where
  stripeocs : Option StripeOCSOpts
  gatewayId : Option String
  methodId : String
  deriving Repr, DecidableEq

/-- The `catch` clause of `initialize`: call the caller-supplied `onError`
callback when present.  Every error produced by the embedded setup code is an
`Error` instance, so the `instanceof Error` guard always passes here. -/
def onErrorEvents (ocs : StripeOCSOpts) (e : JsError) : List StrategyEvent :=
  if ocs.onErrorProvided then [.onError e] else []

/-- `initialize`: argument validation rejects with a `NotInitializedError`;
afterwards every setup failure is caught, reported through `onError`, and the
call resolves.  No cleanup of the strategy fields happens in the catch path. -/
def initializeStrategy (st : StrategyState) (env : InitEnv) (opts : InitOptions) :
    Except JsError Unit × StrategyState × List StrategyEvent :=
  match opts.stripeocs, opts.gatewayId with
  | some ocs, some gatewayId =>
    if ocs.containerId.isEmpty || gatewayId.isEmpty then
      (.error .notInitialized, st, [])
    else
      match initializeStripeElement st env with
      | (.ok _, st1, ev) =>
        match initAdaptivePricing st1 with
        | .ok _ => (.ok (), st1, ev)
        | .error e => (.ok (), st1, ev ++ onErrorEvents ocs e)
      | (.error e, st1, ev) => (.ok (), st1, ev ++ onErrorEvents ocs e)
  | _, _ => (.error .notInitialized, st, [])

/-- `deinitialize`: unmount and destroy the mounted payment element when one is
reachable, clear the three strategy fields, and resolve. -/
def deinitializeStrategy (st : StrategyState) :
    Except JsError Unit × StrategyState × List StrategyEvent :=
  let ev :=
    match st.stripeCheckout with
    | some inst =>
      match inst.paymentElement with
      | some el => [StrategyEvent.unmountElement el, StrategyEvent.destroyElement el]
      | none => []
    | none => []
  (.ok (), initialStrategyState, ev)

/-- The checkout data `execute` reads through `getCheckoutOrThrow`. -/
structure CheckoutData where
  isStoreCreditApplied : Bool
  deriving Repr, DecidableEq

/-- The order request body passed to `execute`. -/
structure PaymentRequest where
  methodId : String
  gatewayId : Option String
  deriving Repr, DecidableEq

structure OrderRequestBody where
  payment : Option PaymentRequest
  deriving Repr, DecidableEq

/-- Environment of `execute`: outcomes of the collaborator calls in source
order.  `isAdditionalActionError` is the `StripeIntegrationService` predicate
over `error.body.errors`; `submitPayment1`/`submitPayment2` are the outcomes
of the at-most-two payment submissions. -/
structure ExecEnv where
  checkout : Option CheckoutData
  applyStoreCreditResult : Except JsError Unit
  loadPaymentMethodResult : Except JsError Unit
  submitOrderResult : Except JsError Unit
  paymentMethod : Option PaymentMethodData
  cartId : Option String
  isAdditionalActionError : List String → Bool
  submitPayment1 : Except JsError Unit
  submitPayment2 : Except JsError Unit
  confirmResult : Except JsError StripeConfirmResult

/-- `_getPaymentPayload`. -/
def getPaymentPayload (st : StrategyState) (env : ExecEnv) (methodId : String)
    (token : Option String) : PaymentPayload :=
  { methodId
    cart_id := env.cartId.getD ""
    confirm := false
    method := st.selectedMethodId
    token }

/-- Modelled from the spec: `StripeIntegrationService.throwPaymentConfirmationProceedMessage`
lives in the stripe-utils package, which is not under src/ (only its caller and
the tests are).  The spec states that when the second submission fails and the
vendor reports the order as already paid, the failure "is reported as a
payment-method-failure (to prevent duplicate charge attempts) rather than the
raw second error", and the test expects the call to reject with
`PaymentMethodFailedError`; we therefore model the helper as producing a
`PaymentMethodFailedError`. -/
def paymentConfirmationProceedError : JsError :=
  .paymentMethodFailed none

/-- `_confirmStripePaymentOrThrow`: requires the cached checkout instance,
loads the Stripe actions, performs exactly one `confirm` round-trip, and fails
with a `PaymentMethodFailedError` when the confirmation reports an error or no
session. -/
def confirmStripePaymentOrThrow (st : StrategyState) (env : ExecEnv)
    (additionalActionData : Option AdditionalActionData) :
    Except JsError StripeCheckoutSession × List StrategyEvent :=
  let redirectUrl := additionalActionData.bind (·.redirect_url)
  match st.stripeCheckout with
  | none => (.error .notInitialized, [])
  | some _inst =>
    match getStripeActionsOrThrow st with
    | .error e => (.error e, [])
    | .ok _ =>
      match env.confirmResult with
      | .error e => (.error e, [.confirm redirectUrl])
      | .ok res =>
        match res.session, res.error with
        | some s, none => (.ok s, [.confirm redirectUrl])
        | _, se => (.error (.paymentMethodFailed (se.bind (·.message))), [.confirm redirectUrl])

/-- `_processAdditionalAction`: rethrow anything that is not a recognized
additional-action request error; otherwise confirm with the vendor once and
resubmit the payment with the checkout-session id, falling back to the token
from the error body when the id is falsy.  A second failure is converted into
the payment-confirmation message when the session reports the payment as paid. -/
def processAdditionalAction (st : StrategyState) (env : ExecEnv) (e : JsError)
    (methodId : String) : Except JsError Unit × List StrategyEvent :=
  match e with
  | .requestError body =>
    if !env.isAdditionalActionError body.errorCodes then
      (.error (.requestError body), [])
    else
      let additionalActionData := body.additionalActionData
      let token := additionalActionData.bind (·.token)
      match confirmStripePaymentOrThrow st env additionalActionData with
      | (.error e1, ev) => (.error e1, ev)
      | (.ok session, ev) =>
        let payload :=
          getPaymentPayload st env methodId
            (if !session.id.isEmpty then some session.id else token)
        let ev2 := ev ++ [StrategyEvent.submitPayment payload]
        match env.submitPayment2 with
        | .ok _ => (.ok (), ev2)
        | .error e2 =>
          if session.status.paymentStatus = .paid then
            (.error paymentConfirmationProceedError, ev2)
          else
            (.error e2, ev2)
  | _ => (.error e, [])

/-- `execute`: requires an initialized client and gateway/method ids, applies
store credit when flagged, refreshes the payment-method metadata, submits the
order, then submits the payment, diverting a rejection into
`_processAdditionalAction`. -/
def execute (st : StrategyState) (env : ExecEnv) (order : OrderRequestBody) :
    Except JsError Unit × List StrategyEvent :=
  let methodId := order.payment.map (·.methodId)
  let gatewayId := order.payment.bind (·.gatewayId)
  match st.stripeClient with
  | none => (.error .notInitialized, [])
  | some _client =>
    if !truthyStr gatewayId || !truthyStr methodId then
      (.error (.invalidArgument
        "Unable to initialize payment because gatewayId or methodId argument is not provided."), [])
    else
      match env.checkout with
      | none => (.error (.missingData .missingCheckout), [])
      | some checkout =>
        let (credit, ev0) :
            Except JsError Unit × List StrategyEvent :=
          if checkout.isStoreCreditApplied then
            (env.applyStoreCreditResult, [.applyStoreCredit])
          else
            (.ok (), [])
        match credit with
        | .error e => (.error e, ev0)
        | .ok _ =>
          let ev1 := ev0 ++ [StrategyEvent.loadPaymentMethod]
          match env.loadPaymentMethodResult with
          | .error e => (.error e, ev1)
          | .ok _ =>
            let ev2 := ev1 ++ [StrategyEvent.submitOrder]
            match env.submitOrderResult with
            | .error e => (.error e, ev2)
            | .ok _ =>
              match env.paymentMethod with
              | none => (.error (.missingData .missingPaymentMethod), ev2)
              | some pm =>
                let mid := methodId.getD ""
                let payload :=
                  getPaymentPayload st env mid (some (pm.clientToken.getD ""))
                let ev3 := ev2 ++ [StrategyEvent.submitPayment payload]
                match env.submitPayment1 with
                | .ok _ => (.ok (), ev3)
                | .error e =>
                  match processAdditionalAction st env e mid with
                  | (r, ev4) => (r, ev3 ++ ev4)

/-- `finalize` rejects unconditionally. -/
def finalizeStrategy : Except JsError Unit :=
  .error .orderFinalizationNotRequired

/-! ### Stripe UPE script loader (`StripeUPEScriptLoader.getStripeClient`)

The window-level singleton cache: the loaded client is attached to
`window.bcStripeClient` and reused by every later call. -/

/-- A constructed Stripe UPE client, identified by its constructor arguments. -/
structure StripeUPEClientH where
  key : String
  stripeAccount : String
  locale : Option String
  betas : List String
  apiVersion : String
  deriving Repr, DecidableEq

/-- The host window: the attached singleton client and whether loading the
vendor script leaves a `Stripe` constructor on the window. -/
structure StripeHostWindow where
  bcStripeClient : Option StripeUPEClientH
  stripeConstructorAvailable : Bool
  deriving Repr, DecidableEq

inductive UpeEvent
  | loadScript (url : String)
  | constructClient (c : StripeUPEClientH)
  deriving Repr, DecidableEq

/-- The hard-coded publishable key passed to the Stripe constructor in place of
the `stripePublishableKey` argument. -/
def hardcodedPublishableKey : String :=
  "pk_test_iyRKkVUt0YWpJ3Lq7mfsw3VW008KiFDH4s"

def stripeUpeBetas : List String :=
  ["payment_element_beta_2", "alipay_pm_beta_1", "link_default_integration_beta_1",
    "shipping_address_element_beta_1", "address_element_beta_1"]

/-- `StripeUPEScriptLoader.getStripeClient`: return the window-attached client
when present; otherwise load the vendor script, fail when no constructor is
available, and construct the client with the hard-coded publishable key, the
given account and locale, then attach it to the window. -/
def getStripeClient (w : StripeHostWindow) (_stripePublishableKey stripeAccount : String)
    (locale : Option String) :
    Except JsError (StripeUPEClientH × StripeHostWindow) × List UpeEvent :=
  match w.bcStripeClient with
  | some stripeClient => (.ok (stripeClient, w), [])
  | none =>
    let ev := [UpeEvent.loadScript "https://js.stripe.com/v3/"]
    if !w.stripeConstructorAvailable then
      (.error .paymentMethodClientUnavailable, ev)
    else
      let stripeClient : StripeUPEClientH :=
        { key := hardcodedPublishableKey
          stripeAccount := stripeAccount
          locale := locale
          betas := stripeUpeBetas
          apiVersion := "2020-03-02;alipay_beta=v1;link_beta=v1" }
      (.ok (stripeClient, { w with bcStripeClient := some stripeClient }),
        ev ++ [UpeEvent.constructClient stripeClient])

/-! ### Language service (`LanguageService.translate`) -/

/-- A value stored in the flattened translation table: a string, or anything
whose `typeof` is not `"string"`. -/
inductive TransValue
  | str (s : String)
  | nonString
  deriving Repr, DecidableEq

inductive LogEvent
  | warn (msg : String)
  deriving Repr, DecidableEq

/-- The language-service instance state read and written by `translate`:
the flattened translation table, the keys holding a cached formatter, and the
CSP-nonce experiment toggle. -/
structure LanguageServiceState where
  translations : List (String × TransValue)
  formatters : List String
  isCspNonceExperimentEnabled : Bool
  deriving Repr, DecidableEq

/-- The key prefixing `KEY_PREFIX + "." + key`. -/
def prefixTranslationKey (key : String) : String :=
  "optimized_checkout." ++ key

/-- `LanguageService.translate`.  The vendor message-format libraries are
external collaborators; `fmt` is the formatting outcome they produce for a
stored message (already applied to the transformed placeholder data).  A
missing or non-string stored translation logs a warning and returns the
prefixed key; otherwise a formatter is cached for the key and the message is
formatted, recovering the original message from a vendor `FormatError` on the
CSP path. -/
def translate (svc : LanguageServiceState) (fmt : String → Except JsError String)
    (key : String) :
    Except JsError String × LanguageServiceState × List LogEvent :=
  let prefixedKey := prefixTranslationKey key
  match svc.translations.lookup prefixedKey with
  | some (.str message) =>
    let svc2 :=
      if svc.formatters.contains prefixedKey then svc
      else { svc with formatters := svc.formatters ++ [prefixedKey] }
    if svc.isCspNonceExperimentEnabled then
      match fmt message with
      | .ok s => (.ok s, svc2, [])
      | .error (.formatError originalMessage) => (.ok (originalMessage.getD ""), svc2, [])
      | .error e => (.error e, svc2, [])
    else
      (fmt message, svc2, [])
  | _ =>
    (.ok prefixedKey, svc,
      [.warn ("Translation key \"" ++ prefixedKey ++ "\" is missing")])

/-! ## Theorems -/

/-- A nonempty string is truthy. -/
theorem truthyStr_of_ne {s : String} (h : s ≠ "") : truthyStr (some s) = true := by
  have he : s.isEmpty = false :=
    Bool.eq_false_iff.mpr fun hh => h ((String.isEmpty_iff s).mp hh)
  simp [truthyStr, he]

/-- C2: for every store state, `continueAsGuest` fails synchronously with
`MissingDataError(MissingCheckout)` when no checkout exists, and with
`UnableToContinueAsGuestError` when the checkout exists but a signed-in
(non-guest) customer is present.  In both cases the function returns an
`Except.error` carrying no `ContinueAsGuestResult`, so no lifecycle action has
been emitted and no request issued; the outcome holds for every possible
request-sender result, confirming that the request layer is never consulted. -/
theorem continueAsGuest_sync_preconditions (st : CheckoutStoreState)
    (credentials : GuestCredentials) (requestResult : Except RequestFailure Checkout) :
    (st.checkout = none →
      continueAsGuest st credentials requestResult =
        .error (.missingData .missingCheckout)) ∧
    (∀ ck c, st.checkout = some ck → st.customer = some c → c.isGuest = false →
      continueAsGuest st credentials requestResult = .error .unableToContinueAsGuest) := by
  constructor
  · intro h
    simp [continueAsGuest, h]
  · intro ck c hck hc hguest
    simp [continueAsGuest, hck, hc, hguest]

/-- Witness for `continueAsGuest_sync_preconditions` at concrete states. -/
theorem continueAsGuest_sync_preconditions_witness :
    continueAsGuest
        { checkout := none, customer := none, billingAddress := none,
          billingFixFeature := none }
        { email := "a@b.com" } (.error { message := "network" }) =
      .error (.missingData .missingCheckout) ∧
    continueAsGuest
        { checkout := some { id := "ck1" }, customer := some { isGuest := false },
          billingAddress := none, billingFixFeature := none }
        { email := "a@b.com" } (.error { message := "network" }) =
      .error .unableToContinueAsGuest :=
  ⟨(continueAsGuest_sync_preconditions _ _ _).1 rfl,
    (continueAsGuest_sync_preconditions _ _ _).2 { id := "ck1" } { isGuest := false }
      rfl rfl rfl⟩

/-- C3: in `updateAddress`, when the caller omits the `email` key and a billing
address is stored, the request body carries the stored email; an email the
caller provides (even the empty string) is used as given; and a truthy stored
billing-address id is copied into the request body. -/
theorem updateAddress_email_fallback_and_id (st : CheckoutStoreState)
    (address : BillingAddressRequestBody) (requestResult : Except RequestFailure Checkout)
    (ck : Checkout) (hck : st.checkout = some ck) :
    ∃ r, updateAddress st address requestResult = .ok r ∧
      r.requestBody = updateAddressRequestBody address st.billingAddress ∧
      (∀ ba, st.billingAddress = some ba → address.email = none →
        r.requestBody.email = some ba.email) ∧
      (∀ s, address.email = some s → r.requestBody.email = some s) ∧
      (∀ ba s, st.billingAddress = some ba → ba.id = some s → s ≠ "" →
        r.requestBody.id = some s) := by
  have hmain : updateAddress st address requestResult = .ok
      { actions :=
          match requestResult with
          | .ok body => [.requested, .succeeded body]
          | .error e => [.requested, .failed e]
        requestKind :=
          createOrUpdateBillingAddress (st.billingFixFeature.getD true)
            st.billingAddress.isSome (updateAddressRequestBody address st.billingAddress)
        requestBody := updateAddressRequestBody address st.billingAddress } := by
    simp [updateAddress, hck]
  refine ⟨_, hmain, rfl, ?_, ?_, ?_⟩
  · intro ba hba hemail
    cases hid : truthyStr ba.id <;>
      simp [updateAddressRequestBody, hba, hemail, hid]
  · intro s hemail
    cases hba : st.billingAddress with
    | none => simp [updateAddressRequestBody, hba, hemail]
    | some ba =>
      cases hid : truthyStr ba.id <;>
        simp [updateAddressRequestBody, hba, hemail, hid]
  · intro ba s hba hid hs
    simp [updateAddressRequestBody, hba, hid, truthyStr_of_ne hs]

/-- Witness for `updateAddress_email_fallback_and_id`: stored address with
email `old@x.com` and a persisted id, update payload omitting `email`. -/
theorem updateAddress_email_fallback_and_id_witness :
    ∃ r,
      updateAddress
          { checkout := some { id := "ck1" },
            customer := some { isGuest := true },
            billingAddress := some
              { id := some "ba7", firstName := some "Jane", email := "old@x.com",
                country := some "US" },
            billingFixFeature := none }
          { firstName := some "Janet" } (.ok { id := "ck1" }) = .ok r ∧
        r.requestBody.email = some "old@x.com" ∧ r.requestBody.id = some "ba7" := by
  obtain ⟨r, hr, -, hfb, -, hid⟩ :=
    updateAddress_email_fallback_and_id
      { checkout := some { id := "ck1" },
        customer := some { isGuest := true },
        billingAddress := some
          { id := some "ba7", firstName := some "Jane", email := "old@x.com",
            country := some "US" },
        billingFixFeature := none }
      { firstName := some "Janet" } (.ok { id := "ck1" }) { id := "ck1" } rfl
  exact ⟨r, hr, hfb _ rfl rfl, hid _ "ba7" rfl rfl (by decide)⟩

/-- C4: with an existing checkout, a guest (or absent) customer and no stored
billing address, `continueAsGuest` emits `Requested`, issues a create request
(never an update, whatever the feature flag) whose body is exactly the
credentials object, and on request success emits `Succeeded` carrying the
checkout body the request returned; with a stored billing address, the request
body is the stored address with its `country` dropped, overridden by the
provided credentials. -/
theorem continueAsGuest_create_and_body (st : CheckoutStoreState)
    (credentials : GuestCredentials) (ck ckBody : Checkout)
    (hck : st.checkout = some ck)
    (hcust : ∀ c, st.customer = some c → c.isGuest = true) :
    (st.billingAddress = none →
      continueAsGuest st credentials (.ok ckBody) = .ok
        { billingActions := [.requested, .succeeded ckBody]
          requestKind := .create
          requestBody := guestCredentialsBody credentials
          subscriptionUpdate := updateCustomerConsent credentials }) ∧
    (∀ ba, st.billingAddress = some ba →
      ∃ r, continueAsGuest st credentials (.ok ckBody) = .ok r ∧
        r.billingActions = [.requested, .succeeded ckBody] ∧
        r.requestBody = spreadCredentials (dropCountry ba) credentials) := by
  have hcustFalse :
      (match st.customer with
        | some customer => !customer.isGuest
        | none => false) = false := by
    cases hc : st.customer with
    | none => rfl
    | some c => simp [hcust c hc]
  constructor
  · intro hba
    have hkind : ∀ flag : Option Bool,
        createOrUpdateBillingAddress (flag.getD true) false
          (guestCredentialsBody credentials) = .create := by
      intro flag
      cases flag with
      | none => rfl
      | some b => cases b <;> rfl
    simp [continueAsGuest, hck, hcustFalse, hba, hkind st.billingFixFeature]
  · intro ba hba
    have hmain : continueAsGuest st credentials (.ok ckBody) = .ok
        { billingActions := [.requested, .succeeded ckBody]
          requestKind :=
            createOrUpdateBillingAddress (st.billingFixFeature.getD true) true
              (spreadCredentials (dropCountry ba) credentials)
          requestBody := spreadCredentials (dropCountry ba) credentials
          subscriptionUpdate := updateCustomerConsent credentials } := by
      simp [continueAsGuest, hck, hcustFalse, hba]
    exact ⟨_, hmain, rfl, rfl⟩

/-- Witness for `continueAsGuest_create_and_body`: no stored billing address,
credentials `a@b.com`, request succeeding with a checkout body. -/
theorem continueAsGuest_create_and_body_witness :
    continueAsGuest
        { checkout := some { id := "ck1" }, customer := none,
          billingAddress := none, billingFixFeature := none }
        { email := "a@b.com" } (.ok { id := "ck1" }) = .ok
      { billingActions := [.requested, .succeeded { id := "ck1" }]
        requestKind := .create
        requestBody := guestCredentialsBody { email := "a@b.com" }
        subscriptionUpdate := updateCustomerConsent { email := "a@b.com" } } :=
  (continueAsGuest_create_and_body
      { checkout := some { id := "ck1" }, customer := none,
        billingAddress := none, billingFixFeature := none }
      { email := "a@b.com" } { id := "ck1" } { id := "ck1" } rfl
      (fun c hc => by cases hc)).1 rfl

/-- C5: whenever `continueAsGuest` reaches its merged emission, the
concurrently merged subscription-update component is present if and only if at
least one consent flag was explicitly provided (not `undefined`/`null`), and
when present its body defaults each absent consent field to `false`.  The
subscription update is a separate component of the `merge`, independent of the
billing-address branch and of the request outcome. -/
theorem continueAsGuest_consent_merge (st : CheckoutStoreState)
    (credentials : GuestCredentials) (requestResult : Except RequestFailure Checkout)
    (r : ContinueAsGuestResult)
    (h : continueAsGuest st credentials requestResult = .ok r) :
    (r.subscriptionUpdate.isSome ↔
      (credentials.acceptsAbandonedCartEmails ≠ none ∨
        credentials.acceptsMarketingNewsletter ≠ none)) ∧
    (∀ b, r.subscriptionUpdate = some b →
      b = { email := credentials.email
            acceptsMarketingNewsletter :=
              credentials.acceptsMarketingNewsletter.getD false
            acceptsAbandonedCartEmails :=
              credentials.acceptsAbandonedCartEmails.getD false }) := by
  have hsub : r.subscriptionUpdate = updateCustomerConsent credentials := by
    cases hck : st.checkout with
    | none => simp [continueAsGuest, hck] at h
    | some ck =>
      cases hc : st.customer with
      | none =>
        simp [continueAsGuest, hck, hc] at h
        rw [← h]
      | some c =>
        cases hg : c.isGuest with
        | false => simp [continueAsGuest, hck, hc, hg] at h
        | true =>
          simp [continueAsGuest, hck, hc, hg] at h
          rw [← h]
  constructor
  · rw [hsub]
    unfold updateCustomerConsent
    cases credentials.acceptsAbandonedCartEmails <;>
      cases credentials.acceptsMarketingNewsletter <;> simp
  · intro b hb
    rw [hsub] at hb
    unfold updateCustomerConsent at hb
    cases hA : credentials.acceptsAbandonedCartEmails <;>
      cases hM : credentials.acceptsMarketingNewsletter <;>
        simp [hA, hM] at hb <;> simp [← hb, hA, hM]

/-- Witness for `continueAsGuest_consent_merge`: one consent flag provided. -/
theorem continueAsGuest_consent_merge_witness :
    ∃ r, continueAsGuest
        { checkout := some { id := "ck1" }, customer := none,
          billingAddress := none, billingFixFeature := none }
        { email := "a@b.com", acceptsAbandonedCartEmails := some true,
          acceptsMarketingNewsletter := none }
        (.ok { id := "ck1" }) = .ok r ∧
      r.subscriptionUpdate.isSome := by
  have hok : continueAsGuest
      { checkout := some { id := "ck1" }, customer := none,
        billingAddress := none, billingFixFeature := none }
      { email := "a@b.com", acceptsAbandonedCartEmails := some true,
        acceptsMarketingNewsletter := none }
      (.ok { id := "ck1" }) = .ok
        { billingActions := [.requested, .succeeded { id := "ck1" }]
          requestKind := .create
          requestBody := guestCredentialsBody
            { email := "a@b.com", acceptsAbandonedCartEmails := some true,
              acceptsMarketingNewsletter := none }
          subscriptionUpdate := some
            { email := "a@b.com", acceptsMarketingNewsletter := false,
              acceptsAbandonedCartEmails := true } } := by decide
  exact ⟨_, hok, (continueAsGuest_consent_merge _ _ _ _ hok).1.mpr (Or.inl (by decide))⟩

/-- C1: when the first `submitPayment` rejects with a request error recognized
as additional-action-required, `execute` performs exactly one vendor
confirmation round-trip and exactly one further `submitPayment` (2 submissions
in total), and when that second submission also fails while the confirmed
session reports its payment status as paid, `execute` rejects with the
payment-method-failure produced by the confirmation-proceed helper instead of
the raw second error (which is universally quantified here). -/
theorem execute_additional_action_paid (st : StrategyState) (env : ExecEnv)
    (order : OrderRequestBody) (pr : PaymentRequest) (cl : StripeClientH)
    (inst : StripeCheckoutInstance) (ck : CheckoutData) (pm : PaymentMethodData)
    (body : RequestErrorBody) (sess : StripeCheckoutSession) (e2 : JsError) (g : String)
    (hcl : st.stripeClient = some cl)
    (hinst : st.stripeCheckout = some inst)
    (hla : inst.loadActions = .ok { actions := true, error := none })
    (hpay : order.payment = some pr)
    (hmid : pr.methodId ≠ "")
    (hgid : pr.gatewayId = some g) (hgne : g ≠ "")
    (hck : env.checkout = some ck)
    (hcredit : env.applyStoreCreditResult = .ok ())
    (hlpm : env.loadPaymentMethodResult = .ok ())
    (hso : env.submitOrderResult = .ok ())
    (hpm : env.paymentMethod = some pm)
    (hsp1 : env.submitPayment1 = .error (.requestError body))
    (haa : env.isAdditionalActionError body.errorCodes = true)
    (hconf : env.confirmResult = .ok { session := some sess, error := none })
    (hpaid : sess.status.paymentStatus = .paid)
    (hsp2 : env.submitPayment2 = .error e2) :
    (execute st env order).1 = .error paymentConfirmationProceedError ∧
    countEvents isSubmitPaymentEvent (execute st env order).2 = 2 ∧
    countEvents isConfirmEvent (execute st env order).2 = 1 := by
  have hm : order.payment.map (·.methodId) = some pr.methodId := by
    rw [hpay]; rfl
  have hgm : order.payment.bind (·.gatewayId) = some g := by
    rw [hpay]; simpa using hgid
  cases hsc : ck.isStoreCreditApplied <;>
    simp [execute, processAdditionalAction, confirmStripePaymentOrThrow,
      getStripeActionsOrThrow, countEvents, isSubmitPaymentEvent, isConfirmEvent,
      hcl, hm, hgm, truthyStr_of_ne hmid, truthyStr_of_ne hgne, hck, hsc,
      hcredit, hlpm, hso, hpm, hsp1, haa, hinst, hla, hconf, hpaid, hsp2]

/-- The checkout instance used by the additional-action scenario witness. -/
def c1Inst : StripeCheckoutInstance :=
  { paymentElement := some { tag := 2 }
    createdElement := none
    loadActions := .ok { actions := true, error := none } }

/-- The strategy state used by the additional-action scenario witness. -/
def c1State : StrategyState :=
  { stripeClient := some { tag := 1 }
    stripeCheckout := some c1Inst
    selectedMethodId := none }

/-- The error body used by the additional-action scenario witness. -/
def c1ErrBody : RequestErrorBody :=
  { errorCodes := ["additional_action_required"]
    additionalActionData := some
      { redirect_url := some "https://redirect-url.com", token := some "token" } }

/-- The execute environment of the additional-action scenario witness: first
submission rejects with the additional-action request error, confirmation
resolves with a paid session, second submission rejects with a plain error. -/
def c1Env : ExecEnv :=
  { checkout := some { isStoreCreditApplied := false }
    applyStoreCreditResult := .ok ()
    loadPaymentMethodResult := .ok ()
    submitOrderResult := .ok ()
    paymentMethod := some { clientToken := some "clientToken",
                            initializationData := some { enableLink := false } }
    cartId := some ""
    isAdditionalActionError := fun codes => codes.contains "additional_action_required"
    submitPayment1 := .error (.requestError c1ErrBody)
    submitPayment2 := .error (.error "second submitPayment error")
    confirmResult := .ok
      { session := some { id := "paymentIntentId", status := { paymentStatus := .paid } }
        error := none } }

/-- The order request of the additional-action scenario witness. -/
def c1Order : OrderRequestBody :=
  { payment := some { methodId := "checkout_session", gatewayId := some "stripeocs" } }

/-- Witness for `execute_additional_action_paid` at the concrete scenario of
the additional-action test. -/
theorem execute_additional_action_paid_witness :
    (execute c1State c1Env c1Order).1 = .error paymentConfirmationProceedError ∧
    countEvents isSubmitPaymentEvent (execute c1State c1Env c1Order).2 = 2 ∧
    countEvents isConfirmEvent (execute c1State c1Env c1Order).2 = 1 :=
  execute_additional_action_paid c1State c1Env c1Order
    { methodId := "checkout_session", gatewayId := some "stripeocs" }
    { tag := 1 } c1Inst { isStoreCreditApplied := false }
    { clientToken := some "clientToken", initializationData := some { enableLink := false } }
    c1ErrBody { id := "paymentIntentId", status := { paymentStatus := .paid } }
    (.error "second submitPayment error") "stripeocs"
    rfl rfl rfl rfl (by decide) rfl (by decide) rfl rfl rfl rfl rfl rfl
    (by decide) rfl rfl rfl

/-- The checkout instance of the failed-initialization scenario: actions load
fine but no payment element exists and none can be created. -/
def c6Inst : StripeCheckoutInstance :=
  { paymentElement := none
    createdElement := none
    loadActions := .ok { actions := true, error := none } }

/-- Environment of the failed-initialization scenario: the payment method and
the script load succeed, then element creation fails. -/
def c6Env : InitEnv :=
  { paymentMethod := some { clientToken := some "clientToken",
                            initializationData := some { enableLink := false } }
    reloadedPaymentMethod := none
    scriptClient := .ok { tag := 1 }
    stripeCheckout := .ok c6Inst
    billingEmail := some "test@bigcommerce.com" }

/-- Valid initialize options with an `onError` callback supplied. -/
def c6Opts : InitOptions :=
  { stripeocs := some { containerId := "containerId", onErrorProvided := true }
    gatewayId := some "stripeocs"
    methodId := "checkout_session" }

/-- Counterexample to C6: a setup failure (payment element not created) after
which `initialize` resolves and invokes `onError`, yet the strategy is not
returned to the uninitialized state — the client handle cached before the
failure is still set, so the claimed reset does not happen. -/
theorem initialize_failure_not_reset_counterexample :
    (initializeStrategy initialStrategyState c6Env c6Opts).1 = .ok () ∧
    StrategyEvent.onError .notInitialized ∈
      (initializeStrategy initialStrategyState c6Env c6Opts).2.2 ∧
    (initializeStrategy initialStrategyState c6Env c6Opts).2.1.stripeClient =
      some { tag := 1 } ∧
    (initializeStrategy initialStrategyState c6Env c6Opts).2.1.stripeCheckout =
      some c6Inst ∧
    (initializeStrategy initialStrategyState c6Env c6Opts).2.1 ≠
      initialStrategyState := by
  decide

/-- C6 as amended: for every failure arising during the setup work of the
strategy initialization (after its argument validation), `initialize` resolves
without rejecting and the caller-supplied `onError` callback is invoked with
the error, but the strategy is not reset to the uninitialized state: the final
instance state is exactly the state the partial setup left behind, cached
client and checkout handles included. -/
theorem initialize_failure_resolves_and_reports (st : StrategyState) (env : InitEnv)
    (opts : InitOptions) (ocs : StripeOCSOpts) (g : String) (e : JsError)
    (st1 : StrategyState) (ev : List StrategyEvent)
    (hocs : opts.stripeocs = some ocs) (hg : opts.gatewayId = some g)
    (hc : ocs.containerId ≠ "") (hgne : g ≠ "")
    (hone : ocs.onErrorProvided = true)
    (hfail : initializeStripeElement st env = (.error e, st1, ev)) :
    initializeStrategy st env opts = (.ok (), st1, ev ++ [.onError e]) := by
  have hce : ocs.containerId.isEmpty = false :=
    Bool.eq_false_iff.mpr fun hh => hc ((String.isEmpty_iff _).mp hh)
  have hge : g.isEmpty = false :=
    Bool.eq_false_iff.mpr fun hh => hgne ((String.isEmpty_iff _).mp hh)
  simp [initializeStrategy, hocs, hg, hce, hge, hfail, onErrorEvents, hone]

/-- Witness for `initialize_failure_resolves_and_reports` at the concrete
failed-initialization scenario. -/
theorem initialize_failure_resolves_and_reports_witness :
    initializeStrategy initialStrategyState c6Env c6Opts =
      (.ok (),
        { stripeClient := some { tag := 1 }, stripeCheckout := some c6Inst,
          selectedMethodId := none },
        [.getStripeClient, .getStripeCheckout, .updateEmail "test@bigcommerce.com",
          .onError .notInitialized]) :=
  initialize_failure_resolves_and_reports initialStrategyState c6Env c6Opts
    { containerId := "containerId", onErrorProvided := true } "stripeocs"
    .notInitialized
    { stripeClient := some { tag := 1 }, stripeCheckout := some c6Inst,
      selectedMethodId := none }
    [.getStripeClient, .getStripeCheckout, .updateEmail "test@bigcommerce.com"]
    rfl rfl (by decide) (by decide) rfl (by decide)

/-- C7: `deinitialize` is idempotent and total: every call resolves, clears
the cached checkout instance, client handle and selected-method state, emits
at most one unmount and one destroy for the mounted element, and a repeated
call (or a call on a never-initialized strategy) resolves again with no
further resource-release side effects. -/
theorem deinitialize_idempotent_total (st : StrategyState) :
    (deinitializeStrategy st).1 = .ok () ∧
    (deinitializeStrategy st).2.1 = initialStrategyState ∧
    deinitializeStrategy (deinitializeStrategy st).2.1 =
      (.ok (), initialStrategyState, []) ∧
    countEvents isUnmountEvent (deinitializeStrategy st).2.2 ≤ 1 ∧
    countEvents isDestroyEvent (deinitializeStrategy st).2.2 ≤ 1 := by
  cases hck : st.stripeCheckout with
  | none =>
    simp [deinitializeStrategy, initialStrategyState, countEvents, hck]
  | some inst =>
    cases hpe : inst.paymentElement <;>
      simp [deinitializeStrategy, initialStrategyState, countEvents, hck, hpe,
        isUnmountEvent, isDestroyEvent]

/-- Payment-method resolution never loads the vendor client script. -/
theorem resolvePaymentMethod_no_client_load (env : InitEnv) :
    countEvents isGetStripeClientEvent (resolvePaymentMethod env).2 = 0 := by
  unfold resolvePaymentMethod
  cases hpm : env.paymentMethod with
  | none => rfl
  | some pm =>
    cases htt : truthyStr pm.clientToken with
    | false =>
      cases hr : env.reloadedPaymentMethod <;>
        simp [htt, hr, countEvents, isGetStripeClientEvent]
    | true => simp [htt, countEvents]

/-- With a cached client handle, the element setup never calls the script
loader and leaves the cached handle in place. -/
theorem initializeStripeElementCore_cached (st : StrategyState) (env : InitEnv)
    (pm : PaymentMethodData) (c : StripeClientH) (hst : st.stripeClient = some c) :
    countEvents isGetStripeClientEvent (initializeStripeElementCore st env pm).2.2 = 0 ∧
    (initializeStripeElementCore st env pm).2.1.stripeClient = some c := by
  have hload : loadStripeJs st env = (.ok c, []) := by simp [loadStripeJs, hst]
  unfold initializeStripeElementCore
  rw [hload]
  cases h1 : (!isStripePaymentMethodLike pm) with
  | true => simp [countEvents, hst]
  | false =>
    cases h2 : (!truthyStr pm.clientToken) with
    | true => simp [countEvents, hst]
    | false =>
      cases hsc : env.stripeCheckout with
      | error e => simp [countEvents, isGetStripeClientEvent]
      | ok inst =>
        cases hact : getStripeActionsOrThrow
            { st with stripeClient := some c, stripeCheckout := some inst } with
        | error e => simp [hact, countEvents, isGetStripeClientEvent]
        | ok u =>
          cases hel : getStripeElement inst <;>
            simp [hact, hel, countEvents, isGetStripeClientEvent]

/-- Each element setup calls the script loader at most once. -/
theorem initializeStripeElementCore_load_le_one (st : StrategyState) (env : InitEnv)
    (pm : PaymentMethodData) :
    countEvents isGetStripeClientEvent (initializeStripeElementCore st env pm).2.2 ≤ 1 := by
  cases hcl : st.stripeClient with
  | some c => simp [(initializeStripeElementCore_cached st env pm c hcl).1]
  | none =>
    have hload : loadStripeJs st env = (env.scriptClient, [.getStripeClient]) := by
      simp [loadStripeJs, hcl]
    unfold initializeStripeElementCore
    rw [hload]
    cases h1 : (!isStripePaymentMethodLike pm) with
    | true => simp [countEvents]
    | false =>
      cases h2 : (!truthyStr pm.clientToken) with
      | true => simp [countEvents]
      | false =>
        cases hs : env.scriptClient with
        | error e => simp [countEvents, isGetStripeClientEvent]
        | ok client =>
          cases hsc : env.stripeCheckout with
          | error e => simp [countEvents, isGetStripeClientEvent]
          | ok inst =>
            cases hact : getStripeActionsOrThrow
                { st with stripeClient := some client, stripeCheckout := some inst } with
            | error e => simp [hact, countEvents, isGetStripeClientEvent]
            | ok u =>
              cases hel : getStripeElement inst <;>
                simp [hact, hel, countEvents, isGetStripeClientEvent]

/-- Events appended concatenate their counts. -/
theorem countEvents_append (p : StrategyEvent → Bool) (a b : List StrategyEvent) :
    countEvents p (a ++ b) = countEvents p a + countEvents p b := by
  simp [countEvents, List.filter_append]

/-- The error-callback events contain no client load. -/
theorem onErrorEvents_no_client_load (ocs : StripeOCSOpts) (e : JsError) :
    countEvents isGetStripeClientEvent (onErrorEvents ocs e) = 0 := by
  cases hone : ocs.onErrorProvided <;>
    simp [onErrorEvents, hone, countEvents, isGetStripeClientEvent]

/-- With a cached client handle, `_initializeStripeElement` never calls the
script loader and keeps the cached handle. -/
theorem initializeStripeElement_cached (st : StrategyState) (env : InitEnv)
    (c : StripeClientH) (hst : st.stripeClient = some c) :
    countEvents isGetStripeClientEvent (initializeStripeElement st env).2.2 = 0 ∧
    (initializeStripeElement st env).2.1.stripeClient = some c := by
  have h0 := resolvePaymentMethod_no_client_load env
  unfold initializeStripeElement
  cases hres : resolvePaymentMethod env with
  | mk r ev0 =>
    rw [hres] at h0
    dsimp only at h0
    cases r with
    | error e => exact ⟨h0, hst⟩
    | ok pm =>
      dsimp only
      have hc := initializeStripeElementCore_cached st env pm c hst
      cases hco : initializeStripeElementCore st env pm with
      | mk r1 rest =>
        obtain ⟨st1, ev1⟩ := rest
        rw [hco] at hc
        dsimp only at hc ⊢
        obtain ⟨hc1, hc2⟩ := hc
        rw [countEvents_append]
        exact ⟨by omega, hc2⟩

/-- Each `_initializeStripeElement` run calls the script loader at most once. -/
theorem initializeStripeElement_load_le_one (st : StrategyState) (env : InitEnv) :
    countEvents isGetStripeClientEvent (initializeStripeElement st env).2.2 ≤ 1 := by
  have h0 := resolvePaymentMethod_no_client_load env
  unfold initializeStripeElement
  cases hres : resolvePaymentMethod env with
  | mk r ev0 =>
    rw [hres] at h0
    dsimp only at h0
    cases r with
    | error e => dsimp only; omega
    | ok pm =>
      dsimp only
      have hc := initializeStripeElementCore_load_le_one st env pm
      cases hco : initializeStripeElementCore st env pm with
      | mk r1 rest =>
        obtain ⟨st1, ev1⟩ := rest
        rw [hco] at hc
        dsimp only at hc ⊢
        rw [countEvents_append]
        omega

/-- With a cached client handle, `initialize` never calls the script loader
and leaves the cached handle in place, whatever else happens. -/
theorem initializeStrategy_cached (st : StrategyState) (env : InitEnv)
    (opts : InitOptions) (c : StripeClientH) (hst : st.stripeClient = some c) :
    countEvents isGetStripeClientEvent (initializeStrategy st env opts).2.2 = 0 ∧
    (initializeStrategy st env opts).2.1.stripeClient = some c := by
  have helem := initializeStripeElement_cached st env c hst
  unfold initializeStrategy
  cases hocs : opts.stripeocs with
  | none => exact ⟨rfl, hst⟩
  | some ocs =>
    cases hg : opts.gatewayId with
    | none => exact ⟨rfl, hst⟩
    | some g =>
      dsimp only
      split
      · exact ⟨rfl, hst⟩
      · cases helm : initializeStripeElement st env with
        | mk r rest =>
          obtain ⟨st1, ev⟩ := rest
          rw [helm] at helem
          dsimp only at helem
          obtain ⟨he1, he2⟩ := helem
          cases r with
          | ok u =>
            dsimp only
            cases hap : initAdaptivePricing st1 with
            | ok v => exact ⟨he1, he2⟩
            | error e =>
              dsimp only
              rw [countEvents_append, onErrorEvents_no_client_load]
              exact ⟨by omega, he2⟩
          | error e =>
            dsimp only
            rw [countEvents_append, onErrorEvents_no_client_load]
            exact ⟨by omega, he2⟩

/-- Each `initialize` call invokes the script-loader client load at most
once. -/
theorem initializeStrategy_load_le_one (st : StrategyState) (env : InitEnv)
    (opts : InitOptions) :
    countEvents isGetStripeClientEvent (initializeStrategy st env opts).2.2 ≤ 1 := by
  have helem := initializeStripeElement_load_le_one st env
  unfold initializeStrategy
  cases hocs : opts.stripeocs with
  | none => simp [countEvents]
  | some ocs =>
    cases hg : opts.gatewayId with
    | none => simp [countEvents]
    | some g =>
      dsimp only
      split
      · simp [countEvents]
      · cases helm : initializeStripeElement st env with
        | mk r rest =>
          obtain ⟨st1, ev⟩ := rest
          rw [helm] at helem
          dsimp only at helem
          cases r with
          | ok u =>
            dsimp only
            cases hap : initAdaptivePricing st1 with
            | ok v => exact helem
            | error e =>
              dsimp only
              rw [countEvents_append, onErrorEvents_no_client_load]
              omega
          | error e =>
            dsimp only
            rw [countEvents_append, onErrorEvents_no_client_load]
            omega

/-- C8: the vendor client handle is loaded at most once and then reused.  For
the strategy: any `initialize` call finding the cached client handle performs
no script-loader client load and leaves the cached handle untouched (so in a
sequence of calls without an intervening `deinitialize`, only the first call
can load), `_loadStripeJs` itself returns the cached handle, and any single
call loads at most once.  For the window-level loader: once a client object is
attached to the window, `getStripeClient` returns it with the window
unchanged and no script load, regardless of its arguments. -/
theorem stripe_client_loaded_once (st : StrategyState) (env : InitEnv)
    (opts : InitOptions) (c : StripeClientH) (w : StripeHostWindow)
    (uc : StripeUPEClientH) (k a : String) (l : Option String)
    (hst : st.stripeClient = some c)
    (hw : w.bcStripeClient = some uc) :
    countEvents isGetStripeClientEvent (initializeStrategy st env opts).2.2 = 0 ∧
    (initializeStrategy st env opts).2.1.stripeClient = some c ∧
    loadStripeJs st env = (.ok c, []) ∧
    (∀ st2 env2 opts2,
      countEvents isGetStripeClientEvent (initializeStrategy st2 env2 opts2).2.2 ≤ 1) ∧
    getStripeClient w k a l = (.ok (uc, w), []) :=
  ⟨(initializeStrategy_cached st env opts c hst).1,
    (initializeStrategy_cached st env opts c hst).2,
    by simp [loadStripeJs, hst],
    fun st2 env2 opts2 => initializeStrategy_load_le_one st2 env2 opts2,
    by simp [getStripeClient, hw]⟩

/-- Strategy state of the reuse witness: a client handle already cached. -/
def c8State : StrategyState :=
  { stripeClient := some { tag := 5 }, stripeCheckout := none,
    selectedMethodId := none }

/-- Environment of the reuse witness. -/
def c8Env : InitEnv :=
  { paymentMethod := none
    reloadedPaymentMethod := none
    scriptClient := .error .notInitialized
    stripeCheckout := .error .notInitialized
    billingEmail := none }

/-- Options of the reuse witness. -/
def c8Opts : InitOptions :=
  { stripeocs := some { containerId := "containerId", onErrorProvided := false }
    gatewayId := some "stripeocs"
    methodId := "checkout_session" }

/-- Client already attached to the host window in the reuse witness. -/
def c8WindowClient : StripeUPEClientH :=
  { key := hardcodedPublishableKey, stripeAccount := "acct", locale := none,
    betas := stripeUpeBetas, apiVersion := "2020-03-02;alipay_beta=v1;link_beta=v1" }

/-- Host window of the reuse witness. -/
def c8Window : StripeHostWindow :=
  { bcStripeClient := some c8WindowClient, stripeConstructorAvailable := true }

/-- Witness for `stripe_client_loaded_once` at concrete cached states. -/
theorem stripe_client_loaded_once_witness :
    countEvents isGetStripeClientEvent (initializeStrategy c8State c8Env c8Opts).2.2 = 0 ∧
    (initializeStrategy c8State c8Env c8Opts).2.1.stripeClient = some { tag := 5 } ∧
    loadStripeJs c8State c8Env = (.ok { tag := 5 }, []) ∧
    (∀ st2 env2 opts2,
      countEvents isGetStripeClientEvent (initializeStrategy st2 env2 opts2).2.2 ≤ 1) ∧
    getStripeClient c8Window "pk_live_other" "acct" none =
      (.ok (c8WindowClient, c8Window), []) :=
  stripe_client_loaded_once c8State c8Env c8Opts { tag := 5 } c8Window
    c8WindowClient "pk_live_other" "acct" none rfl rfl


/-- C9: `getStripeClient` is insensitive to its `stripePublishableKey`
argument: two calls differing only in that argument produce identical results
(client, window mutation and side-effect trace alike), and whenever a fresh
client is constructed its publishable key is the hard-coded constant rather
than the argument. -/
theorem getStripeClient_key_insensitive (w : StripeHostWindow) (k1 k2 a : String)
    (l : Option String) :
    getStripeClient w k1 a l = getStripeClient w k2 a l ∧
    (∀ c w2 ev, getStripeClient w k1 a l = (.ok (c, w2), ev) →
      w.bcStripeClient = none → c.key = hardcodedPublishableKey) := by
  refine ⟨rfl, ?_⟩
  intro c w2 ev h hN
  rw [getStripeClient, hN] at h
  cases hA : w.stripeConstructorAvailable with
  | false => simp [hA] at h
  | true =>
    simp only [hA, Bool.not_true, Bool.false_eq_true, if_false] at h
    obtain ⟨⟨hc, -⟩, -⟩ := by
      simpa using h
    rw [← hc]

/-- The client constructed in the key-insensitivity witness. -/
def c9Client : StripeUPEClientH :=
  { key := hardcodedPublishableKey, stripeAccount := "acct", locale := none,
    betas := stripeUpeBetas, apiVersion := "2020-03-02;alipay_beta=v1;link_beta=v1" }

/-- The fresh host window of the key-insensitivity witness. -/
def c9Window : StripeHostWindow :=
  { bcStripeClient := none, stripeConstructorAvailable := true }

/-- Witness for `getStripeClient_key_insensitive`: a fresh window, two
different keys. -/
theorem getStripeClient_key_insensitive_witness :
    getStripeClient c9Window "pk_test_first" "acct" none =
      getStripeClient c9Window "pk_test_second" "acct" none ∧
    c9Client.key = hardcodedPublishableKey := by
  have h :=
    getStripeClient_key_insensitive c9Window "pk_test_first" "pk_test_second" "acct" none
  exact ⟨h.1,
    h.2 c9Client { bcStripeClient := some c9Client, stripeConstructorAvailable := true }
      [UpeEvent.loadScript "https://js.stripe.com/v3/", UpeEvent.constructClient c9Client]
      (by decide) rfl⟩

/-- C10: for every key whose stored translation is absent or not a string,
`translate` does not throw: it logs one missing-key warning and returns the
prefixed key unchanged, leaving the whole service state — the translation
table included — unmodified. -/
theorem translate_missing_key (svc : LanguageServiceState)
    (fmt : String → Except JsError String) (key : String)
    (h : ∀ s, svc.translations.lookup (prefixTranslationKey key) ≠ some (.str s)) :
    translate svc fmt key =
      (.ok (prefixTranslationKey key), svc,
        [.warn ("Translation key \"" ++ prefixTranslationKey key ++ "\" is missing")]) := by
  cases hl : svc.translations.lookup (prefixTranslationKey key) with
  | none => simp [translate, hl]
  | some v =>
    cases v with
    | str s => exact absurd hl (h s)
    | nonString => simp [translate, hl]

/-- Witness for `translate_missing_key`: an empty translation table. -/
theorem translate_missing_key_witness :
    translate
        { translations := [], formatters := [], isCspNonceExperimentEnabled := true }
        (fun m => .ok m) "foo" =
      (.ok "optimized_checkout.foo",
        { translations := [], formatters := [], isCspNonceExperimentEnabled := true },
        [.warn "Translation key \"optimized_checkout.foo\" is missing"]) := by
  have h :=
    translate_missing_key
      { translations := [], formatters := [], isCspNonceExperimentEnabled := true }
      (fun m => .ok m) "foo" (fun s hs => by simp [List.lookup] at hs)
  simpa [prefixTranslationKey] using h

end CheckoutSdk
